import Mathlib

/-!
Verification development for the factory credential module
(factory/credentialClass.py).

The Python module is shallowly embedded: byte strings are modelled as
Lean `String`, dictionaries as association lists, the filesystem as an
association list from path to content, and exceptions as the `Except`
monad over an explicit error type.  External collaborators (the
asymmetric and symmetric key capabilities, the frontend descriptor
policy, the factory configuration from glideFactoryLib) are modelled as
records of functions and passed as parameters, exactly as the code
treats them as opaque.
-/

/-- Kinds of Python exceptions the embedded code can raise.  `credErr`
is the module exception class CredentialError; `keyErr` is a KeyError
from a missing dictionary key; `typeErr` is a TypeError; `osErr` is an
OSError or IOError coming from the operating system; `otherErr` stands
for any other exception raised by an external capability (for example a
decryption failure). -/
inductive PyErr where
  | credErr (msg : String)
  | keyErr (key : String)
  | typeErr
  | osErr
  | otherErr
deriving DecidableEq

/-- A Python string-like value: text (str) or bytes.  The content of a
bytes value is modelled as a Lean String of the corresponding code
points.  Python 3 keeps str and bytes as distinct, never-equal types,
which this tag records. -/
inductive PyData where
  | ofStr (s : String)
  | ofBytes (s : String)
deriving DecidableEq

/-- Python equality on string-like values: same-type values compare by
content, while a str never equals a bytes value, whatever the content
of either. -/
def pyEq : PyData → PyData → Bool
  | .ofStr a, .ofStr b => a == b
  | .ofBytes a, .ofBytes b => a == b
  | .ofStr _, .ofBytes _ => false
  | .ofBytes _, .ofStr _ => false

/-- Model of io.StringIO().write: a text buffer accepts str and returns
the extended buffer; writing bytes raises TypeError (string argument
expected, got bytes). -/
def stringIO_write (buf : String) (v : PyData) : Except PyErr String :=
  match v with
  | .ofStr s => .ok (buf ++ s)
  | .ofBytes _ => .error .typeErr

/-- The filesystem, as a map from path to file content (bytes modelled
as a string). -/
abbrev FS := List (String × String)

/-- Read a file: `none` means the path does not exist (os.path.isfile
is false). -/
def fsRead (fs : FS) (p : String) : Option String := List.lookup p fs

/-- Create or overwrite a file. -/
def fsWrite : FS → String → String → FS
  | [], p, c => [(p, c)]
  | (q, d) :: rest, p, c => if q = p then (p, c) :: rest else (q, d) :: fsWrite rest p c

/-- Delete a file if present (os.remove with the OSError swallowed). -/
def fsRemove : FS → String → FS
  | [], _ => []
  | (q, d) :: rest, p => if q = p then fsRemove rest p else (q, d) :: fsRemove rest p

/-- The first bytes of the gzip header (the magic 0x1f 0x8b) that
GzipFile emits at construction in write mode. -/
def gzipHeaderStart : String := String.mk [Char.ofNat 31, Char.ofNat 139]

/-- Embedding of compress_credential.  The source builds
`gzip.GzipFile(fileobj=cfile, mode="wb")` over `cfile = StringIO()`.
GzipFile in write mode emits the gzip header - bytes beginning with the
magic 0x1f 0x8b - into fileobj at construction; StringIO is a text
buffer and rejects bytes with TypeError, so the call always raises.
(Even with a bytes buffer, `cfile.getvalue()` is reached only after the
outer with block has closed `cfile`, which would raise ValueError.)
The ok branch below is unreachable because `stringIO_write` always
fails on bytes. -/
def compress_credential (credential_data : String) : Except PyErr String :=
  match stringIO_write "" (.ofBytes gzipHeaderStart) with
  | .error e => .error e
  | .ok _ => .error .typeErr

/-- Embedding of safe_update.  `bad` is the set of paths on which the
operating system refuses os.open (for example a permission error),
modelling the possible OSError of the environment.  `credential_data`
is bytes: every call of the module passes bytes (the decrypt_hex output
or the b"glidein_credentials=..." literal).

Two slips of the source are modelled faithfully:
- the existing-file branch reads old_data with a text-mode open, so
  old_data is a str while credential_data is bytes; in Python 3 a bytes
  value never equals a str value, so the comparison guarding the no-op
  branch is always False and that branch is dead code, whatever the
  file holds (rendered below with pyEq against the tagged values);
- files are opened with `with os.open(fname, flags, 0o600) as file`.
  os.open returns an integer file descriptor, and an int is not a
  context manager, so this statement raises TypeError right after
  os.open has already created the (empty) file via O_CREAT.
Consequently:
- a missing target file is created empty and TypeError is raised;
- an existing file - even one already holding exactly the bytes being
  written: the stale ".old" backup is removed, an empty ".new" is
  created (O_CREAT without O_TRUNC keeps an existing ".new" as is),
  and TypeError is raised - the shutil.copy2 and os.rename lines after
  the write are dead code, never reached. -/
def safe_update (bad : List String) (fs : FS) (fname credential_data : String) :
    FS × Except PyErr Unit :=
  match fsRead fs fname with
  | none =>
      if fname ∈ bad then (fs, .error .osErr)
      else (fsWrite fs fname "", .error .typeErr)
  | some old_data =>
      if pyEq (.ofBytes credential_data) (.ofStr old_data) then (fs, .ok ())
      else
        let fs1 := fsRemove fs (fname ++ ".old")
        if (fname ++ ".new") ∈ bad then (fs1, .error .osErr)
        else
          let fs2 :=
            if (fsRead fs1 (fname ++ ".new")).isSome then fs1
            else fsWrite fs1 (fname ++ ".new") ""
          (fs2, .error .typeErr)

/-- External configuration used by update_credential_file: the per-user
credential directory resolver and the id escaping function, both from
glideFactoryLib (outside this module, treated as an opaque
collaborator). -/
structure FactoryConfig where
  get_client_proxies_dir : String → String
  escapeParam : String → String

/-- Embedding of update_credential_file: build the two target file
names and safe_update the raw credential, then the compressed one.
os.path.join is modelled by inserting a "/" separator. -/
def update_credential_file (cfg : FactoryConfig) (bad : List String) (fs : FS)
    (username client_id credential_data request_clientname : String) :
    FS × Except PyErr (String × String) :=
  let fname := cfg.get_client_proxies_dir username ++ "/" ++
    ("credential_" ++ request_clientname ++ "_" ++ cfg.escapeParam client_id)
  let fname_compressed := fname ++ "_compressed"
  match safe_update bad fs fname credential_data with
  | (fs1, .error e) => (fs1, .error e)
  | (fs1, .ok _) =>
      match compress_credential credential_data with
      | .error e => (fs1, .error e)
      | .ok compressed =>
          match safe_update bad fs1 fname_compressed ("glidein_credentials=" ++ compressed) with
          | (fs2, .error e) => (fs2, .error e)
          | (fs2, .ok _) => (fs2, .ok (fname, fname_compressed))

/-- The symmetric key capability extracted from a request: decrypt_hex
returns the decrypted bytes, `none` modelling a raised exception.  The
source sometimes applies `.decode("utf-8")` to the result; bytes are
modelled as `String`, so the decode step is the identity here, and a
decode failure is covered by a `none` decryption result. -/
structure SymKeyObj where
  decrypt_hex : String → Option String

/-- The factory public key capability: extract_sym_key returns the
symmetric key object for a request key code, `none` modelling a raised
exception. -/
structure PubKeyObj where
  extract_sym_key : String → Option SymKeyObj

/-- The frontend descriptor policy: security name to expected identity,
and (security name, security class) to local username. -/
structure FrontendDescript where
  get_identity : String → Option String
  get_username : String → String → Option String

/-- A ClassAd: a dictionary from attribute names to (encrypted) string
values, modelled as an association list (first binding wins). -/
abbrev ClassAd := List (String × String)

/-- Embedding of get_key_obj: require ReqEncKeyCode and extract the
symmetric key, turning either failure into a CredentialError. -/
def get_key_obj (pub_key_obj : PubKeyObj) (classad : ClassAd) : Except PyErr SymKeyObj :=
  match List.lookup "ReqEncKeyCode" classad with
  | some code =>
      match pub_key_obj.extract_sym_key code with
      | some sym_key_obj => .ok sym_key_obj
      | none => .error (.credErr "Symmetric key extraction failed.")
  | none => .error (.credErr "Classad does not contain a key.  We cannot decrypt.")

/-- Embedding of validate_frontend.  The lookup of AuthenticatedIdentity
is outside any try block in the source, so a missing key is a KeyError;
the lookups of ReqEncIdentity and GlideinEncParamSecurityName sit inside
bare try blocks together with the decryption, so a missing key or a
decryption failure both surface as the corresponding CredentialError. -/
def validate_frontend (classad : ClassAd) (frontend_descript : FrontendDescript)
    (pub_key_obj : PubKeyObj) : Except PyErr (SymKeyObj × String) :=
  match get_key_obj pub_key_obj classad with
  | .error e => .error e
  | .ok sym_key_obj =>
    match List.lookup "AuthenticatedIdentity" classad with
    | none => .error (.keyErr "AuthenticatedIdentity")
    | some authenticated_identity =>
      match (List.lookup "ReqEncIdentity" classad).bind sym_key_obj.decrypt_hex with
      | none => .error (.credErr "Cannot decrypt ReqEncIdentity.")
      | some enc_identity =>
        if enc_identity ≠ authenticated_identity then
          .error (.credErr ("Client provided invalid ReqEncIdentity(" ++ enc_identity ++
            "!=" ++ authenticated_identity ++ "). Skipping for security reasons."))
        else
          match (List.lookup "GlideinEncParamSecurityName" classad).bind
              sym_key_obj.decrypt_hex with
          | none => .error (.credErr "Cannot decrypt GlideinEncParamSecurityName.")
          | some frontend_sec_name =>
            match frontend_descript.get_identity frontend_sec_name with
            | none => .error (.credErr
                ("This frontend is not authorized by the factory.  Supplied security name: " ++
                  frontend_sec_name))
            | some expected_identity =>
              if authenticated_identity ≠ expected_identity then
                .error (.credErr
                  "This frontend Authenticated Identity, does not match the expected identity")
              else
                .ok (sym_key_obj, frontend_sec_name)

/-- String s seen as its character list with the first n characters
removed (the Python slice key[n:], kernel-reduction friendly). -/
def dropStr (n : Nat) (s : String) : String := String.mk (s.toList.drop n)

/-- Whether p is a leading piece of s (the anchored regex match of the
source, kernel-reduction friendly). -/
def startsWithStr (p s : String) : Bool := List.isPrefixOf p.toList s.toList

/-- The keys of a ClassAd matching the anchored regex
GlideinEncParamSecurityClass, in dictionary order. -/
def mkeysOf (classad : ClassAd) : List String :=
  List.filter (fun k => startsWithStr "GlideinEncParamSecurityClass" k)
    (List.map Prod.fst classad)

/-- Embedding of the per-credential-id loop of process_global.  For each
matched key: slice off the 28 character tag GlideinEncParamSecurityClass
to get the credential id, decrypt the companion GlideinEncParam field
for the credential bytes and the matched field for the security class,
resolve the username, and persist.  A missing key is a KeyError and a
decryption failure an external exception, both aborting the loop; a
missing username mapping only logs and skips the one id. -/
def processIds (cfg : FactoryConfig) (bad : List String) (classad : ClassAd)
    (sym_key_obj : SymKeyObj) (frontend_descript : FrontendDescript)
    (frontend_sec_name request_clientname : String) :
    List String → FS → FS × Except PyErr Unit
  | [], fs => (fs, .ok ())
  | key :: rest, fs =>
    let cred_id := dropStr 28 key
    match List.lookup ("GlideinEncParam" ++ cred_id) classad with
    | none => (fs, .error (.keyErr ("GlideinEncParam" ++ cred_id)))
    | some enc_data =>
      match sym_key_obj.decrypt_hex enc_data with
      | none => (fs, .error .otherErr)
      | some cred_data =>
        match List.lookup key classad with
        | none => (fs, .error (.keyErr key))
        | some enc_class =>
          match sym_key_obj.decrypt_hex enc_class with
          | none => (fs, .error .otherErr)
          | some security_class =>
            match frontend_descript.get_username frontend_sec_name security_class with
            | none =>
                processIds cfg bad classad sym_key_obj frontend_descript
                  frontend_sec_name request_clientname rest fs
            | some username =>
                match update_credential_file cfg bad fs username cred_id cred_data
                    request_clientname with
                | (fs1, .error e) => (fs1, .error e)
                | (fs1, .ok _) =>
                    processIds cfg bad classad sym_key_obj frontend_descript
                      frontend_sec_name request_clientname rest fs1

/-- The body of the try block of process_global: authenticate, read
ClientName, then run the per-id loop. -/
def process_global_body (cfg : FactoryConfig) (bad : List String) (classad : ClassAd)
    (pub_key_obj : PubKeyObj) (frontend_descript : FrontendDescript) (fs : FS) :
    FS × Except PyErr Unit :=
  match validate_frontend classad frontend_descript pub_key_obj with
  | .error e => (fs, .error e)
  | .ok (sym_key_obj, frontend_sec_name) =>
    match List.lookup "ClientName" classad with
    | none => (fs, .error (.keyErr "ClientName"))
    | some request_clientname =>
      processIds cfg bad classad sym_key_obj frontend_descript frontend_sec_name
        request_clientname (mkeysOf classad) fs

/-- Embedding of process_global.  The PubKeyObj entry of the glidein
descriptor data is passed as an Option; its absence raises a
CredentialError before the try block.  The whole body runs inside
`try ... except:` - a bare except - so ANY exception escaping the body
(CredentialError, KeyError, TypeError, OSError, ...) is logged and
re-raised as the single CredentialError below; files already written by
the body stay on disk. -/
def process_global (cfg : FactoryConfig) (bad : List String) (classad : ClassAd)
    (pub_key_obj : Option PubKeyObj) (frontend_descript : FrontendDescript) (fs : FS) :
    FS × Except PyErr Unit :=
  match pub_key_obj with
  | none => (fs, .error (.credErr "Factory has no public key.  We cannot decrypt."))
  | some pub =>
    match process_global_body cfg bad classad pub frontend_descript fs with
    | (fs1, .ok _) => (fs1, .ok ())
    | (fs1, .error _) =>
        (fs1, .error (.credErr "Error occurred processing the globals classads."))

/-- The auth methods supported by the module, in source order. -/
def SUPPORTED_AUTH_METHODS : List String :=
  ["grid_proxy", "cert_pair", "key_pair", "auth_file", "username_password",
   "idtoken", "scitoken"]

/-- The credential-relevant parameter keys of check_security_credentials. -/
def relevant_keys : List String :=
  ["SubmitProxy", "GlideinProxy", "Username", "Password", "PublicCert",
   "PrivateCert", "PublicKey", "PrivateKey", "VMId", "VMType", "AuthFile"]

/-- Allow-list of the grid_proxy branch. -/
def grid_proxy_valid_keys : List String := ["SubmitProxy"]

/-- Allow-list of the cert_pair branch. -/
def cert_pair_valid_keys : List String :=
  ["GlideinProxy", "PublicCert", "PrivateCert", "VMId", "VMType"]

/-- Allow-list of the key_pair branch. -/
def key_pair_valid_keys : List String :=
  ["GlideinProxy", "PublicKey", "PrivateKey", "VMId", "VMType"]

/-- Allow-list of the auth_file branch. -/
def auth_file_valid_keys : List String := ["GlideinProxy", "AuthFile", "VMId", "VMType"]

/-- Allow-list of the username_password branch. -/
def username_password_valid_keys : List String :=
  ["GlideinProxy", "Username", "Password", "VMId", "VMType"]

/-- Auxiliary recursion for splitPlus: split a character list at each
occurrence of the plus sign. -/
def splitPlusAux : List Char → List (List Char)
  | [] => [[]]
  | c :: cs =>
    let r := splitPlusAux cs
    if c = '+' then [] :: r
    else
      match r with
      | h :: t => (c :: h) :: t
      | [] => [[c]]

/-- The Python auth_method.split of the source, specialised to the
separator used there (the plus sign): "a+b" becomes [a, b] and a string
without separator becomes the one-element list. -/
def splitPlus (s : String) : List String :=
  List.map (fun l => String.mk l) (splitPlusAux s.toList)

/-- Embedding of check_security_credentials over the key set of the
decrypted params dictionary.  The truthiness test of the Python set
intersection params_keys & invalid_keys, with invalid_keys the set
difference of relevant_keys and the branch allow-list, is rendered as
the bounded existential "some supplied key is relevant and outside the
allow-list".  The message strings follow the source (the single quotes
around the client name are dropped). -/
def check_security_credentials (auth_method : String) (params : List String)
    (client_int_name entry_name : String) (scitoken_passthru : Bool) :
    Except PyErr Unit :=
  if ¬ ∃ m ∈ splitPlus auth_method, m ∈ SUPPORTED_AUTH_METHODS then
    -- none of the supported auth methods: log a warning and permit
    .ok ()
  else if "scitoken" ∈ splitPlus auth_method ∨
      ("frontend_scitoken" ∈ params ∧ scitoken_passthru = true) then
    .ok ()
  else if "grid_proxy" ∈ splitPlus auth_method then
    if scitoken_passthru = false then
      if "SubmitProxy" ∈ params then
        if ∃ k ∈ params, k ∈ relevant_keys ∧ k ∉ grid_proxy_valid_keys then
          .error (.credErr ("Request from " ++ client_int_name ++
            " has credentials not required by the entry " ++ entry_name ++
            ", skipping request"))
        else .ok ()
      else
        .error (.credErr ("Request from client " ++ client_int_name ++
          " did not provide a proxy as required by the entry " ++ entry_name ++
          ", skipping request"))
    else .ok ()
  else
    if "GlideinProxy" ∉ params ∧ scitoken_passthru = false then
      .error (.credErr ("Glidein proxy cannot be found for client " ++ client_int_name ++
        ", skipping request"))
    else if "cert_pair" ∈ splitPlus auth_method then
      if ¬ ("PublicCert" ∈ params ∧ "PrivateCert" ∈ params) then
        .error (.credErr ("Client " ++ client_int_name ++
          " did not specify the certificate pair in the request, this is required by entry " ++
          entry_name ++ ", skipping "))
      else if ∃ k ∈ params, k ∈ relevant_keys ∧ k ∉ cert_pair_valid_keys then
        .error (.credErr ("Request from " ++ client_int_name ++
          " has credentials not required by the entry " ++ entry_name ++ ", skipping request"))
      else .ok ()
    else if "key_pair" ∈ splitPlus auth_method then
      if ¬ ("PublicKey" ∈ params ∧ "PrivateKey" ∈ params) then
        .error (.credErr ("Client " ++ client_int_name ++
          " did not specify the key pair in the request, this is required by entry " ++
          entry_name ++ ", skipping "))
      else if ∃ k ∈ params, k ∈ relevant_keys ∧ k ∉ key_pair_valid_keys then
        .error (.credErr ("Request from " ++ client_int_name ++
          " has credentials not required by the entry " ++ entry_name ++ ", skipping request"))
      else .ok ()
    else if "auth_file" ∈ splitPlus auth_method then
      if ¬ ("AuthFile" ∈ params) then
        .error (.credErr ("Client " ++ client_int_name ++
          " did not specify the auth_file in the request, this is required by entry " ++
          entry_name ++ ", skipping "))
      else if ∃ k ∈ params, k ∈ relevant_keys ∧ k ∉ auth_file_valid_keys then
        .error (.credErr ("Request from " ++ client_int_name ++
          " has credentials not required by the entry " ++ entry_name ++ ", skipping request"))
      else .ok ()
    else if "username_password" ∈ splitPlus auth_method then
      if ¬ ("Username" ∈ params ∧ "Password" ∈ params) then
        .error (.credErr ("Client " ++ client_int_name ++
          " did not specify the username and password in the request, this is required by entry " ++
          entry_name ++ ", skipping "))
      else if ∃ k ∈ params, k ∈ relevant_keys ∧ k ∉ username_password_valid_keys then
        .error (.credErr ("Request from " ++ client_int_name ++
          " has credentials not required by the entry " ++ entry_name ++ ", skipping request"))
      else .ok ()
    else
      .error (.credErr "Inconsistency between SUPPORTED_AUTH_METHODS and check_security_credentials")

/-- A value stored in a Credentials dictionary: either a Python string
(what the SubmitCredentials accessors actually insert) or an instance
of the Credential abstract class (carrying its kind tag). -/
inductive PyObj where
  | pstr (s : String)
  | credObj (kind : String)
deriving DecidableEq

/-- Set a key in an association list, first binding wins. -/
def assocSet : List (String × PyObj) → String → PyObj → List (String × PyObj)
  | [], k, v => [(k, v)]
  | (q, w) :: rest, k, v => if q = k then (k, v) :: rest else (q, w) :: assocSet rest k v

/-- Embedding of Credentials.__setitem__: the dictionary subclass
rejects any value that is not a Credential instance by raising
TypeError (message: Value must be a credential). -/
def credentials_setitem (d : List (String × PyObj)) (k : String) (v : PyObj) :
    Except PyErr (List (String × PyObj)) :=
  match v with
  | .credObj _ => .ok (assocSet d k v)
  | .pstr _ => .error .typeErr

/-- Embedding of the SubmitCredentials aggregate.  The two credential
maps are Credentials dictionaries, so every insertion goes through
credentials_setitem. -/
structure SubmitCredentials where
  username : String
  security_class : String
  id : Option String
  cred_dir : String
  security_credentials : List (String × PyObj)
  identity_credentials : List (String × PyObj)

/-- The environment of add_security_credential / add_factory_credential:
is_str_safe from glideFactoryLib (outside this module) and os.path.isfile. -/
structure FileEnv where
  is_str_safe : String → Bool
  isfile : String → Bool

/-- Embedding of SubmitCredentials.add_security_credential.  The file
name checks return False; the final dictionary store goes through
Credentials.__setitem__ with a string value.  os.path.join is modelled
by inserting a "/" separator. -/
def add_security_credential (env : FileEnv) (sc : SubmitCredentials)
    (cred_type filename pfx : String) : Except PyErr (SubmitCredentials × Bool) :=
  if env.is_str_safe filename = false then .ok (sc, false)
  else
    let cred_fname := sc.cred_dir ++ "/" ++ (pfx ++ filename)
    if env.isfile cred_fname = false then .ok (sc, false)
    else
      match credentials_setitem sc.security_credentials cred_type (.pstr cred_fname) with
      | .error e => .error e
      | .ok d => .ok ({ sc with security_credentials := d }, true)

/-- Embedding of SubmitCredentials.add_factory_credential. -/
def add_factory_credential (env : FileEnv) (sc : SubmitCredentials)
    (cred_type absfname : String) : Except PyErr (SubmitCredentials × Bool) :=
  if env.isfile absfname = false then .ok (sc, false)
  else
    match credentials_setitem sc.security_credentials cred_type (.pstr absfname) with
    | .error e => .error e
    | .ok d => .ok ({ sc with security_credentials := d }, true)

/-- Embedding of SubmitCredentials.add_identity_credential. -/
def add_identity_credential (sc : SubmitCredentials) (cred_type cred_str : String) :
    Except PyErr (SubmitCredentials × Bool) :=
  match credentials_setitem sc.identity_credentials cred_type (.pstr cred_str) with
  | .error e => .error e
  | .ok d => .ok ({ sc with identity_credentials := d }, true)

/-!
Concrete instances of the external capabilities, used to exercise the
embedded functions on closed inputs.
-/

/-- A concrete symmetric key: a small decryption table over the
ciphertexts used in the concrete ClassAds below. -/
def symW : SymKeyObj := SymKeyObj.mk (fun s =>
  if s = "eid" then some "id@host" else
  if s = "esn" then some "sec1" else
  if s = "eclA" then some "clA" else
  if s = "edataA" then some "DA" else
  if s = "eclB" then some "clB" else
  if s = "edataB" then some "DB" else none)

/-- A concrete factory public key that extracts symW from the key code
kc. -/
def pub0 : PubKeyObj := PubKeyObj.mk (fun c => if c = "kc" then some symW else none)

/-- A concrete frontend policy: security name sec1 expects identity
id@host; security class clB maps to user u1 and clA maps to nobody. -/
def fd0 : FrontendDescript := FrontendDescript.mk
  (fun n => if n = "sec1" then some "id@host" else none)
  (fun n c => if n = "sec1" ∧ c = "clB" then some "u1" else none)

/-- A concrete factory configuration: user u gets credential directory
/cred/u, and ids are left unescaped. -/
def cfg0 : FactoryConfig := FactoryConfig.mk (fun u => "/cred/" ++ u) (fun s => s)

/-- A well-formed ClassAd with two embedded credential ids A and B:
id A carries security class clA (unmapped by fd0), id B carries clB
(mapped to u1). -/
def adTwo : ClassAd :=
  [("ClientName", "cl"), ("AuthenticatedIdentity", "id@host"), ("ReqEncKeyCode", "kc"),
   ("ReqEncIdentity", "eid"), ("GlideinEncParamSecurityName", "esn"),
   ("GlideinEncParamSecurityClassA", "eclA"), ("GlideinEncParamA", "edataA"),
   ("GlideinEncParamSecurityClassB", "eclB"), ("GlideinEncParamB", "edataB")]

/-- A well-formed ClassAd with the single embedded credential id B. -/
def adOne : ClassAd :=
  [("ClientName", "cl"), ("AuthenticatedIdentity", "id@host"), ("ReqEncKeyCode", "kc"),
   ("ReqEncIdentity", "eid"), ("GlideinEncParamSecurityName", "esn"),
   ("GlideinEncParamSecurityClassB", "eclB"), ("GlideinEncParamB", "edataB")]

/-- A ClassAd without a ReqEncKeyCode, failing frontend validation. -/
def adBad : ClassAd := [("AuthenticatedIdentity", "id@host")]

/-- A ClassAd whose decrypted ReqEncIdentity (id@host) differs from its
AuthenticatedIdentity (other@host). -/
def adMism : ClassAd :=
  [("ClientName", "cl"), ("AuthenticatedIdentity", "other@host"), ("ReqEncKeyCode", "kc"),
   ("ReqEncIdentity", "eid"), ("GlideinEncParamSecurityName", "esn")]

/-- The target path of credential id B for user u1 under cfg0, as a set
of paths on which os.open fails with OSError. -/
def badW : List String := ["/cred/u1/credential_cl_B"]

/-- A file environment whose checks all pass. -/
def env0 : FileEnv := FileEnv.mk (fun _ => true) (fun _ => true)

/-- A fresh SubmitCredentials aggregate. -/
def sc0 : SubmitCredentials := SubmitCredentials.mk "u" "cls" none "/dir" [] []

/-!
Theorems about the claims.
-/

/-- C1: if validate_frontend fails on a ClassAd, process_global leaves
the filesystem unchanged (zero credential files persisted for any
embedded credential id) and raises exactly one CredentialError; since
the failing run writes nothing, credential bytes are written only after
validate_frontend has returned successfully for the owning ClassAd. -/
theorem process_global_auth_failure (cfg : FactoryConfig) (bad : List String)
    (classad : ClassAd) (pub : PubKeyObj) (fd : FrontendDescript) (fs : FS) (e : PyErr)
    (h : validate_frontend classad fd pub = .error e) :
    process_global cfg bad classad (some pub) fd fs =
      (fs, .error (.credErr "Error occurred processing the globals classads.")) := by
  simp only [process_global, process_global_body, h]

/-- C1 witness: a ClassAd with no ReqEncKeyCode fails validation, and
process_global on an empty filesystem returns the one CredentialError
with the filesystem still empty. -/
theorem process_global_auth_failure_witness :
    validate_frontend adBad fd0 pub0 =
      .error (.credErr "Classad does not contain a key.  We cannot decrypt.") ∧
    process_global cfg0 [] adBad (some pub0) fd0 [] =
      ([], .error (.credErr "Error occurred processing the globals classads.")) :=
  ⟨rfl, process_global_auth_failure cfg0 [] adBad pub0 fd0 []
    (.credErr "Classad does not contain a key.  We cannot decrypt.") rfl⟩

/-- C5: the claim says the mutating accessors of SubmitCredentials
never raise and return a success flag.  In the code the success path of
each accessor stores a plain string into a Credentials dictionary, and
Credentials.__setitem__ raises TypeError (Value must be a credential)
for any non-Credential value, so each accessor raises on its success
path instead of returning True. -/
theorem submit_credentials_accessors_raise :
    add_identity_credential sc0 "ctype" "val" = .error .typeErr ∧
    add_security_credential env0 sc0 "ctype" "fname" "" = .error .typeErr ∧
    add_factory_credential env0 sc0 "ctype" "/abs/fname" = .error .typeErr :=
  ⟨rfl, rfl, rfl⟩

/-- C6: the claim says that writing the bytes a file already holds is a
no-op.  In the code the existing content is read with a text-mode open,
so old_data is a str while credential_data is bytes, and in Python 3 a
bytes value never equals a str value: the comparison guarding the no-op
branch is False even for byte-identical content.  The call therefore
takes the changed-content path, which removes any stale ".old", creates
an empty ".new" via os.open, and raises TypeError (the int file
descriptor is not a context manager) - not a no-op, and a ".new"
sibling has been created. -/
theorem safe_update_identical_not_noop :
    pyEq (PyData.ofBytes "X") (PyData.ofStr "X") = false ∧
    safe_update [] [("f", "X")] "f" "X" =
      ([("f", "X"), ("f.new", "")], .error .typeErr) ∧
    fsRead (safe_update [] [("f", "X")] "f" "X").1 "f.new" = some "" :=
  ⟨rfl, rfl, rfl⟩

/-- C7: the claim says that on changed content safe_update writes the
new bytes to ".new", backs the old content up to ".old" and atomically
renames ".new" over the target.  In the code the write uses
`with os.open(fname + ".new", flags, 0o600) as file`; os.open returns
an int file descriptor, which is not a context manager, so after
removing the stale ".old" and creating an empty ".new" the call raises
TypeError: the target still holds the old bytes, an empty ".new" is
left behind, no ".old" exists, and the copy and rename lines are never
reached. -/
theorem safe_update_changed_raises :
    safe_update [] [("f", "X")] "f" "Y" = ([("f", "X"), ("f.new", "")], .error .typeErr) ∧
    fsRead (safe_update [] [("f", "X")] "f" "Y").1 "f" = some "X" ∧
    fsRead (safe_update [] [("f", "X")] "f" "Y").1 "f.new" = some "" ∧
    fsRead (safe_update [] [("f", "X")] "f" "Y").1 "f.old" = none :=
  ⟨rfl, rfl, rfl, rfl⟩

/-- C8: the claim says compress_credential returns the base64 encoding
of the gzip compression of its input.  In the code the GzipFile is
constructed over a text StringIO buffer; writing the gzip header bytes
into the text buffer raises TypeError, so the function raises on every
input instead of returning an encoding. -/
theorem compress_credential_always_raises (credential_data : String) :
    compress_credential credential_data = .error .typeErr := rfl

/-- C9: the claim says that an id with no username mapping is skipped
while the sibling ids are persisted and the call returns normally.  On
adTwo, id A is indeed skipped without writing a file, but persisting
sibling id B crashes inside safe_update (TypeError from using the int
returned by os.open as a context manager) after creating only an empty
credential file, and the whole call raises CredentialError instead of
returning normally. -/
theorem process_global_skip_sibling_crash :
    FrontendDescript.get_username fd0 "sec1" "clA" = none ∧
    FrontendDescript.get_username fd0 "sec1" "clB" = some "u1" ∧
    process_global cfg0 [] adTwo (some pub0) fd0 [] =
      ([("/cred/u1/credential_cl_B", "")],
       .error (.credErr "Error occurred processing the globals classads.")) :=
  ⟨rfl, rfl, rfl⟩

/-- C10 counterexample: with os.open failing on the target path of
credential id B (an OSError from the operating system), persisting
fails with that filesystem error, yet process_global does not let the
I/O error out: the bare except remaps it to the generic
CredentialError, which differs from the OSError kind. -/
theorem process_global_io_error_counterexample :
    update_credential_file cfg0 badW [] "u1" "B" "DB" "cl" = ([], .error .osErr) ∧
    process_global cfg0 badW adOne (some pub0) fd0 [] =
      ([], .error (.credErr "Error occurred processing the globals classads.")) ∧
    PyErr.credErr "Error occurred processing the globals classads." ≠ PyErr.osErr :=
  ⟨rfl, rfl, by decide⟩

/-- C10 amended: when the per-id persistence loop fails with any error
(in particular a filesystem error), process_global fails - the error is
not swallowed, and files already written stay - but the error is
remapped by the bare except into the single generic CredentialError
rather than propagating as an I/O error. -/
theorem process_global_persist_error_remapped (cfg : FactoryConfig) (bad : List String)
    (classad : ClassAd) (pub : PubKeyObj) (fd : FrontendDescript) (fs fs1 : FS)
    (sym : SymKeyObj) (secname cn : String) (e : PyErr)
    (hv : validate_frontend classad fd pub = .ok (sym, secname))
    (hc : List.lookup "ClientName" classad = some cn)
    (hl : processIds cfg bad classad sym fd secname cn (mkeysOf classad) fs =
      (fs1, .error e)) :
    process_global cfg bad classad (some pub) fd fs =
      (fs1, .error (.credErr "Error occurred processing the globals classads.")) := by
  simp only [process_global, process_global_body, hv, hc, hl]

/-- C10 amended witness: the OSError scenario of the counterexample,
obtained through the amended theorem. -/
theorem process_global_persist_error_remapped_witness :
    process_global cfg0 badW adOne (some pub0) fd0 [] =
      ([], .error (.credErr "Error occurred processing the globals classads.")) :=
  process_global_persist_error_remapped cfg0 badW adOne pub0 fd0 [] [] symW "sec1" "cl"
    .osErr rfl rfl rfl

/-- C2: under a successful key extraction and successful decryptions,
validate_frontend fails with a CredentialError (returning no key
capability) whenever the decrypted ReqEncIdentity differs from the
AuthenticatedIdentity of the ClassAd, whenever the policy has no
expected identity for the decrypted security name, and whenever the
expected identity differs from the AuthenticatedIdentity; otherwise it
returns the symmetric key capability together with the decrypted
frontend security name. -/
theorem validate_frontend_auth (classad : ClassAd) (fd : FrontendDescript)
    (pub : PubKeyObj) (sym : SymKeyObj) (auth ident secname : String)
    (hkey : get_key_obj pub classad = .ok sym)
    (hauth : List.lookup "AuthenticatedIdentity" classad = some auth)
    (hid : (List.lookup "ReqEncIdentity" classad).bind sym.decrypt_hex = some ident)
    (hsn : (List.lookup "GlideinEncParamSecurityName" classad).bind
      sym.decrypt_hex = some secname) :
    (ident ≠ auth → ∃ m, validate_frontend classad fd pub = .error (.credErr m)) ∧
    (FrontendDescript.get_identity fd secname = none →
      ∃ m, validate_frontend classad fd pub = .error (.credErr m)) ∧
    (∀ exp, FrontendDescript.get_identity fd secname = some exp → exp ≠ auth →
      ∃ m, validate_frontend classad fd pub = .error (.credErr m)) ∧
    (ident = auth → FrontendDescript.get_identity fd secname = some auth →
      validate_frontend classad fd pub = .ok (sym, secname)) := by
  refine ⟨?_, ?_, ?_, ?_⟩
  · intro hne
    exact ⟨_, by simp only [validate_frontend, hkey, hauth, hid, if_pos hne]; rfl⟩
  · intro hnone
    by_cases hia : ident = auth
    · subst hia
      exact ⟨_, by
        simp only [validate_frontend, hkey, hauth, hid, hsn, hnone,
          if_neg (fun hh => hh rfl : ¬ ident ≠ ident)]; rfl⟩
    · exact ⟨_, by simp only [validate_frontend, hkey, hauth, hid, if_pos hia]; rfl⟩
  · intro exp hexp hne
    by_cases hia : ident = auth
    · subst hia
      exact ⟨_, by
        simp only [validate_frontend, hkey, hauth, hid, hsn, hexp,
          if_neg (fun hh => hh rfl : ¬ ident ≠ ident),
          if_pos (fun hh => hne hh.symm : ident ≠ exp)]; rfl⟩
    · exact ⟨_, by simp only [validate_frontend, hkey, hauth, hid, if_pos hia]; rfl⟩
  · intro hia hexp
    subst hia
    simp only [validate_frontend, hkey, hauth, hid, hsn, hexp,
      if_neg (fun hh => hh rfl : ¬ ident ≠ ident)]

/-- C2 witness: on the matching ClassAd adTwo validation succeeds and
returns the key capability with security name sec1; on adMism, whose
decrypted identity differs from the authenticated one, it fails with a
CredentialError. -/
theorem validate_frontend_auth_witness :
    validate_frontend adTwo fd0 pub0 = .ok (symW, "sec1") ∧
    (∃ m, validate_frontend adMism fd0 pub0 = .error (.credErr m)) :=
  ⟨(validate_frontend_auth adTwo fd0 pub0 symW "id@host" "id@host" "sec1"
      rfl rfl rfl rfl).2.2.2 rfl rfl,
   (validate_frontend_auth adMism fd0 pub0 symW "other@host" "id@host" "sec1"
      rfl rfl rfl rfl).1 (by decide)⟩

/-- C3: with scitoken passthrough disabled, scitoken not declared and
grid_proxy among the declared auth methods, check_security_credentials
accepts a params set whose only credential-relevant key is SubmitProxy,
raises CredentialError when SubmitProxy is accompanied by any other
credential-relevant key, and raises CredentialError when SubmitProxy is
absent. -/
theorem check_security_credentials_grid_proxy (auth_method : String) (params : List String)
    (client_int_name entry_name : String)
    (hs : "scitoken" ∉ splitPlus auth_method)
    (hg : "grid_proxy" ∈ splitPlus auth_method) :
    ("SubmitProxy" ∈ params → (∀ k ∈ params, k ∈ relevant_keys → k = "SubmitProxy") →
      check_security_credentials auth_method params client_int_name entry_name false =
        .ok ()) ∧
    (∀ k, "SubmitProxy" ∈ params → k ∈ params → k ∈ relevant_keys → k ≠ "SubmitProxy" →
      ∃ m, check_security_credentials auth_method params client_int_name entry_name false =
        .error (.credErr m)) ∧
    ("SubmitProxy" ∉ params →
      ∃ m, check_security_credentials auth_method params client_int_name entry_name false =
        .error (.credErr m)) := by
  have hgate : ¬ ¬ ∃ m ∈ splitPlus auth_method, m ∈ SUPPORTED_AUTH_METHODS :=
    not_not_intro ⟨"grid_proxy", hg, by simp [SUPPORTED_AUTH_METHODS]⟩
  have hsci : ¬ ("scitoken" ∈ splitPlus auth_method ∨
      ("frontend_scitoken" ∈ params ∧ (false : Bool) = true)) := by
    rintro (h | ⟨-, h⟩)
    · exact hs h
    · exact Bool.false_ne_true h
  refine ⟨?_, ?_, ?_⟩
  · intro hsp hall
    have hno : ¬ ∃ k ∈ params, k ∈ relevant_keys ∧ k ∉ grid_proxy_valid_keys := by
      rintro ⟨k, hkp, hkr, hknv⟩
      exact hknv (by simp [grid_proxy_valid_keys, hall k hkp hkr])
    simp only [check_security_credentials, if_neg hgate, if_neg hsci, if_pos hg,
      if_pos trivial, if_pos hsp, if_neg hno]
  · intro k hsp hkp hkr hkne
    have hyes : ∃ k ∈ params, k ∈ relevant_keys ∧ k ∉ grid_proxy_valid_keys :=
      ⟨k, hkp, hkr, by simp [grid_proxy_valid_keys, hkne]⟩
    exact ⟨_, by simp only [check_security_credentials, if_neg hgate, if_neg hsci,
      if_pos hg, if_pos trivial, if_pos hsp, if_pos hyes]; rfl⟩
  · intro hnsp
    exact ⟨_, by simp only [check_security_credentials, if_neg hgate, if_neg hsci,
      if_pos hg, if_pos trivial, if_neg hnsp]; rfl⟩

/-- C4: with passthrough disabled, cert_pair declared and neither
scitoken nor grid_proxy declared, check_security_credentials raises
CredentialError when GlideinProxy is absent; accepts a params set
containing GlideinProxy, PublicCert and PrivateCert whose
credential-relevant keys all lie in the allow-list (VMId and VMType
also allowed); raises CredentialError when PrivateCert is missing; and
raises CredentialError when any credential-relevant key outside the
allow-list is present. -/
theorem check_security_credentials_cert_pair (auth_method : String) (params : List String)
    (client_int_name entry_name : String)
    (hs : "scitoken" ∉ splitPlus auth_method)
    (hgp : "grid_proxy" ∉ splitPlus auth_method)
    (hc : "cert_pair" ∈ splitPlus auth_method) :
    ("GlideinProxy" ∉ params →
      ∃ m, check_security_credentials auth_method params client_int_name entry_name false =
        .error (.credErr m)) ∧
    ("GlideinProxy" ∈ params → "PublicCert" ∈ params → "PrivateCert" ∈ params →
      (∀ k ∈ params, k ∈ relevant_keys → k ∈ cert_pair_valid_keys) →
      check_security_credentials auth_method params client_int_name entry_name false =
        .ok ()) ∧
    ("PrivateCert" ∉ params →
      ∃ m, check_security_credentials auth_method params client_int_name entry_name false =
        .error (.credErr m)) ∧
    (∀ k, k ∈ params → k ∈ relevant_keys → k ∉ cert_pair_valid_keys →
      ∃ m, check_security_credentials auth_method params client_int_name entry_name false =
        .error (.credErr m)) := by
  have hgate : ¬ ¬ ∃ m ∈ splitPlus auth_method, m ∈ SUPPORTED_AUTH_METHODS :=
    not_not_intro ⟨"cert_pair", hc, by simp [SUPPORTED_AUTH_METHODS]⟩
  have hsci : ¬ ("scitoken" ∈ splitPlus auth_method ∨
      ("frontend_scitoken" ∈ params ∧ (false : Bool) = true)) := by
    rintro (h | ⟨-, h⟩)
    · exact hs h
    · exact Bool.false_ne_true h
  have herrGP : "GlideinProxy" ∉ params →
      ∃ m, check_security_credentials auth_method params client_int_name entry_name false =
        .error (.credErr m) := by
    intro hnp
    have hGPc : "GlideinProxy" ∉ params ∧ True := ⟨hnp, trivial⟩
    exact ⟨_, by simp only [check_security_credentials, if_neg hgate, if_neg hsci,
      if_neg hgp, if_pos hGPc]; rfl⟩
  refine ⟨herrGP, ?_, ?_, ?_⟩
  · intro hp hpub hpriv hall
    have hnGP : ¬ ("GlideinProxy" ∉ params ∧ True) := fun hh => hh.1 hp
    have hno : ¬ ∃ k ∈ params, k ∈ relevant_keys ∧ k ∉ cert_pair_valid_keys := by
      rintro ⟨k, hkp, hkr, hknv⟩
      exact hknv (hall k hkp hkr)
    have hcertpair : "PublicCert" ∈ params ∧ "PrivateCert" ∈ params := ⟨hpub, hpriv⟩
    simp only [check_security_credentials, if_neg hgate, if_neg hsci, if_neg hgp,
      if_neg hnGP, if_pos hc, if_neg (not_not_intro hcertpair), if_neg hno]
  · intro hnpriv
    by_cases hp : "GlideinProxy" ∈ params
    · have hnGP : ¬ ("GlideinProxy" ∉ params ∧ True) := fun hh => hh.1 hp
      have hmiss : ¬ ("PublicCert" ∈ params ∧ "PrivateCert" ∈ params) := by
        rintro ⟨-, h2⟩
        exact hnpriv h2
      exact ⟨_, by simp only [check_security_credentials, if_neg hgate, if_neg hsci,
        if_neg hgp, if_neg hnGP, if_pos hc, if_pos hmiss]; rfl⟩
    · exact herrGP hp
  · intro k hkp hkr hknv
    by_cases hp : "GlideinProxy" ∈ params
    · have hnGP : ¬ ("GlideinProxy" ∉ params ∧ True) := fun hh => hh.1 hp
      by_cases hcerts : "PublicCert" ∈ params ∧ "PrivateCert" ∈ params
      · have hyes : ∃ k ∈ params, k ∈ relevant_keys ∧ k ∉ cert_pair_valid_keys :=
          ⟨k, hkp, hkr, hknv⟩
        exact ⟨_, by simp only [check_security_credentials, if_neg hgate, if_neg hsci,
          if_neg hgp, if_neg hnGP, if_pos hc, if_neg (not_not_intro hcerts),
          if_pos hyes]; rfl⟩
      · exact ⟨_, by simp only [check_security_credentials, if_neg hgate, if_neg hsci,
          if_neg hgp, if_neg hnGP, if_pos hc, if_pos hcerts]; rfl⟩
    · exact herrGP hp

/-- C3 witness: with method grid_proxy, the set containing only
SubmitProxy is accepted; SubmitProxy plus Username is rejected;
Username plus Password (no SubmitProxy) is rejected. -/
theorem check_security_credentials_grid_proxy_witness :
    check_security_credentials "grid_proxy" ["SubmitProxy"] "client" "entry" false =
      .ok () ∧
    (∃ m, check_security_credentials "grid_proxy" ["SubmitProxy", "Username"] "client"
      "entry" false = .error (.credErr m)) ∧
    (∃ m, check_security_credentials "grid_proxy" ["Username", "Password"] "client"
      "entry" false = .error (.credErr m)) :=
  ⟨(check_security_credentials_grid_proxy "grid_proxy" ["SubmitProxy"] "client" "entry"
      (by decide) (by decide)).1 (by decide) (by decide),
   (check_security_credentials_grid_proxy "grid_proxy" ["SubmitProxy", "Username"] "client"
      "entry" (by decide) (by decide)).2.1 "Username" (by decide) (by decide) (by decide)
      (by decide),
   (check_security_credentials_grid_proxy "grid_proxy" ["Username", "Password"] "client"
      "entry" (by decide) (by decide)).2.2 (by decide)⟩

/-- C4 witness: with method cert_pair, the set GlideinProxy, PublicCert,
PrivateCert is accepted; dropping PrivateCert is rejected; adding
Username is rejected. -/
theorem check_security_credentials_cert_pair_witness :
    check_security_credentials "cert_pair" ["GlideinProxy", "PublicCert", "PrivateCert"]
      "client" "entry" false = .ok () ∧
    (∃ m, check_security_credentials "cert_pair" ["GlideinProxy", "PublicCert"]
      "client" "entry" false = .error (.credErr m)) ∧
    (∃ m, check_security_credentials "cert_pair"
      ["GlideinProxy", "PublicCert", "PrivateCert", "Username"] "client" "entry" false =
      .error (.credErr m)) :=
  ⟨(check_security_credentials_cert_pair "cert_pair"
      ["GlideinProxy", "PublicCert", "PrivateCert"] "client" "entry"
      (by decide) (by decide) (by decide)).2.1 (by decide) (by decide)
      (by decide) (by decide),
   (check_security_credentials_cert_pair "cert_pair" ["GlideinProxy", "PublicCert"]
      "client" "entry" (by decide) (by decide) (by decide)).2.2.1 (by decide),
   (check_security_credentials_cert_pair "cert_pair"
      ["GlideinProxy", "PublicCert", "PrivateCert", "Username"] "client" "entry"
      (by decide) (by decide) (by decide)).2.2.2 "Username" (by decide) (by decide)
      (by decide)⟩
